import Mathlib

/-!
# Verification of the obs-rec video normalization pipeline

Shallow embedding of `src/obs_rec/video_compressor.py` (class `VideoCompressor`).

Filesystem paths are modelled structurally (directory, stem, extension), the
filesystem as an association list from paths to byte sizes, and the external
tools (`ffprobe`, `ffmpeg`, `Path.unlink`) as an environment record describing
their observable behaviour for one `compress_if_needed` invocation.  Python
floats are modelled as exact rationals `ℚ`; Python's `float /` raising
`ZeroDivisionError` on a zero divisor is modelled explicitly.  Each method
additionally returns the final filesystem and a trace of the external-tool
invocations it performed, so that frame conditions ("no probe or transcode is
invoked", "the original is not deleted") are statable.
-/

namespace ObsRec

/-- A filesystem path, modelled structurally as `pathlib.Path` is used by the
code: a parent directory, a stem, and an extension (`suffix`, including the
leading dot).  `with_stem` and `with_suffix` replace the respective field. -/
structure Path where
  dir : String
  stem : String
  suffix : String
deriving DecidableEq, Repr

/-- Model of `pathlib.Path.with_stem`. -/
def Path.with_stem (p : Path) (s : String) : Path := { p with stem := s }

/-- Model of `pathlib.Path.with_suffix`. -/
def Path.with_suffix (p : Path) (s : String) : Path := { p with suffix := s }

/-- The filesystem: the set of existing files with their byte sizes
(`Path.stat().st_size`), as an association list (first entry wins). -/
structure FS where
  files : List (Path × Nat)
deriving DecidableEq, Repr

/-- Model of `Path.exists()`. -/
def FS.existsp (fs : FS) (p : Path) : Bool :=
  (fs.files.find? (fun e => e.1 = p)).isSome

/-- Python exceptions that escape the `VideoCompressor` methods. -/
inductive Err where
  /-- Exception `FileNotFoundError`, raised explicitly by the code or by `Path.stat()`
  on a missing file. -/
  | fileNotFound (p : Path)
  /-- Exception `RuntimeError`, raised when the external transcode tool fails. -/
  | runtime (msg : String)
  /-- Exception `ZeroDivisionError`, raised by Python's `/` on a zero divisor. -/
  | zeroDivision
deriving DecidableEq, Repr

deriving instance DecidableEq for Except

/-- Model of `Path.stat().st_size`: the byte size, or `FileNotFoundError` when the
path does not exist. -/
def FS.statSize (fs : FS) (p : Path) : Except Err Nat :=
  match fs.files.find? (fun e => e.1 = p) with
  | some e => .ok e.2
  | none => .error (.fileNotFound p)

/-- Writing a file (ffmpeg's `-y` output): replaces any existing entry. -/
def FS.write (fs : FS) (p : Path) (sz : Nat) : FS :=
  ⟨(p, sz) :: fs.files.filter (fun e => ¬ e.1 = p)⟩

/-- Model of `Path.unlink()`: removes the entry. -/
def FS.remove (fs : FS) (p : Path) : FS :=
  ⟨fs.files.filter (fun e => ¬ e.1 = p)⟩

/-- One external-tool invocation, recorded in the trace. -/
inductive Event where
  /-- Invocation `ffprobe -show_entries format=duration <p>` (container-level probe). -/
  | probeFormat (p : Path)
  /-- Invocation of `ffprobe` on the first video stream (`-select_streams v:0
  -show_entries stream=duration <p>`). -/
  | probeStream (p : Path)
  /-- Invocation of the `ffmpeg` bitrate-budgeted transcode (`_run_ffmpeg`),
  with the `-b:v` bitrate string passed to it. -/
  | runFfmpegCompress (inp out : Path) (bitrate : String)
  /-- Invocation of the `ffmpeg` format-only conversion (inside `convert_to_mp4`). -/
  | runFfmpegConvert (inp out : Path)
  /-- Attempted `Path.unlink()` on the original. -/
  | unlink (p : Path)
deriving DecidableEq, Repr

/-- Observable behaviour of the external world for one invocation:
the two `ffprobe` outputs, the semantics of Python's `float()` parser on
probe output, whether `ffmpeg` exits zero, whether a successful `ffmpeg`
run actually creates its output file (and its size), and whether
`Path.unlink` succeeds. -/
structure Env where
  /-- Semantics of Python `float(s)`: `none` models a `ValueError`. -/
  parseFloat : String → Option ℚ
  /-- Container-level `ffprobe` run: `.error` models a non-zero exit
  (`CalledProcessError`), `.ok s` the captured stdout. -/
  probe_fmt : Except Unit String
  /-- Stream-level `ffprobe` run. -/
  probe_stream : Except Unit String
  /-- Whether the `ffmpeg` transcode exits zero. -/
  ffmpeg_ok : Bool
  /-- Whether a zero-exit `ffmpeg` run creates the output file. -/
  ffmpeg_creates : Bool
  /-- Byte size of the file a successful `ffmpeg` run creates. -/
  out_size : Nat
  /-- Whether `Path.unlink()` succeeds (a raised `OSError` is modelled by
  `false`). -/
  unlink_ok : Bool

/-- Python `str.strip()` (default whitespace): drop whitespace from both
ends, modelled structurally on the character list. -/
def pyStrip (s : String) : String :=
  ⟨((s.data.dropWhile Char.isWhitespace).reverse.dropWhile Char.isWhitespace).reverse⟩

/-- Python `str.lower()`, modelled structurally on the character list. -/
def pyLower (s : String) : String :=
  ⟨s.data.map Char.toLower⟩

/-- The `VideoCompressor` instance state: the configured target size. -/
structure VideoCompressor where
  target_size_mb : ℚ
deriving DecidableEq, Repr

/-- Python `int()` on a rational: truncation toward zero. -/
def pyTrunc (q : ℚ) : ℤ := if 0 ≤ q then ⌊q⌋ else ⌈q⌉

/-- Model of `VideoCompressor._calculate_bitrate`, line for line.  Python raises
`ZeroDivisionError` when `duration` is zero, so the function is fallible. -/
def VideoCompressor.calculate_bitrate (c : VideoCompressor) (duration : ℚ) :
    Except Err String :=
  if duration = 0 then .error .zeroDivision
  else
    let target_bits := c.target_size_mb * 1024 * 1024 * 8 * 0.95
    let video_bitrate := target_bits / duration - 128000
    let video_bitrate := max video_bitrate 500000
    let video_bitrate := min video_bitrate 5000000
    let video_bitrate_k := pyTrunc (video_bitrate / 1000)
    .ok (toString video_bitrate_k ++ "k")

/-- Model of `VideoCompressor._get_duration`.  Returns the duration together with the
trace of `ffprobe` invocations.  The single `try`/`except` of the source
catches both `CalledProcessError` and `ValueError` and returns the default
30.0, so this function is total and never errors. -/
def VideoCompressor.get_duration (env : Env) (video_path : Path) :
    ℚ × List Event :=
  match env.probe_fmt with
  | .error _ => (30, [.probeFormat video_path])
  | .ok stdout =>
    let duration_str := pyStrip stdout
    if duration_str ≠ "" ∧ duration_str ≠ "N/A" then
      match env.parseFloat duration_str with
      | some v => (v, [.probeFormat video_path])
      | none => (30, [.probeFormat video_path])
    else
      match env.probe_stream with
      | .error _ => (30, [.probeFormat video_path, .probeStream video_path])
      | .ok stdout_alt =>
        let duration_str_alt := pyStrip stdout_alt
        if duration_str_alt ≠ "" ∧ duration_str_alt ≠ "N/A" then
          match env.parseFloat duration_str_alt with
          | some v => (v, [.probeFormat video_path, .probeStream video_path])
          | none => (30, [.probeFormat video_path, .probeStream video_path])
        else (30, [.probeFormat video_path, .probeStream video_path])

/-- Model of `VideoCompressor._run_ffmpeg`: shells out to the `ffmpeg` transcode with
the computed bitrate.  On a zero exit the output file appears in the
filesystem iff the tool actually created it; a non-zero exit
(`CalledProcessError`) is re-raised as `RuntimeError`. -/
def VideoCompressor.run_ffmpeg (env : Env) (fs : FS)
    (input_path output_path : Path) (bitrate : String) :
    Except Err Unit × FS × List Event :=
  if env.ffmpeg_ok then
    let fs' := if env.ffmpeg_creates then fs.write output_path env.out_size else fs
    (.ok (), fs', [.runFfmpegCompress input_path output_path bitrate])
  else
    (.error (.runtime "Video compression failed"), fs,
      [.runFfmpegCompress input_path output_path bitrate])

/-- Model of `VideoCompressor.compress`: check existence, derive the default output
path (`<stem>_compressed.mp4`), probe the duration when not supplied,
compute the bitrate, run `ffmpeg`, and verify that the output exists. -/
def VideoCompressor.compress (c : VideoCompressor) (env : Env) (fs : FS)
    (input_path : Path) (output_path? : Option Path) (duration? : Option ℚ) :
    Except Err Path × FS × List Event :=
  if ¬ fs.existsp input_path then
    (.error (.fileNotFound input_path), fs, [])
  else
    let output_path :=
      match output_path? with
      | none => (input_path.with_stem (input_path.stem ++ "_compressed")).with_suffix ".mp4"
      | some p => p
    let dur_ev :=
      match duration? with
      | none => VideoCompressor.get_duration env input_path
      | some d => (d, [])
    let duration := dur_ev.1
    let ev1 := dur_ev.2
    match c.calculate_bitrate duration with
    | .error e => (.error e, fs, ev1)
    | .ok bitrate =>
      match VideoCompressor.run_ffmpeg env fs input_path output_path bitrate with
      | (.error e, fs', ev2) => (.error e, fs', ev1 ++ ev2)
      | (.ok _, fs', ev2) =>
        if ¬ fs'.existsp output_path then
          (.error (.runtime "Failed to create compressed video"), fs', ev1 ++ ev2)
        else
          (.ok output_path, fs', ev1 ++ ev2)

/-- Model of `VideoCompressor.convert_to_mp4`: check existence, derive the default
output path (`<stem>.mp4`), skip when the input is already an `.mp4` equal
to the output, and otherwise run the format-only `ffmpeg` conversion.
Note: unlike `compress`, this method performs NO existence check on the
output after a reported success. -/
def VideoCompressor.convert_to_mp4 (env : Env) (fs : FS)
    (input_path : Path) (output_path? : Option Path) :
    Except Err Path × FS × List Event :=
  if ¬ fs.existsp input_path then
    (.error (.fileNotFound input_path), fs, [])
  else
    let output_path :=
      match output_path? with
      | none => input_path.with_suffix ".mp4"
      | some p => p
    if pyLower input_path.suffix = ".mp4" ∧ output_path = input_path then
      (.ok input_path, fs, [])
    else
      if env.ffmpeg_ok then
        let fs' := if env.ffmpeg_creates then fs.write output_path env.out_size else fs
        (.ok output_path, fs', [.runFfmpegConvert input_path output_path])
      else
        (.error (.runtime "MP4 conversion failed"), fs,
          [.runFfmpegConvert input_path output_path])

/-- Model of `VideoCompressor.compress_if_needed`, the normalizer's `process`
operation: decide shrink/convert/no-op from the current size and extension,
dispatch, then best-effort delete the original.  The returned
`VideoCompressor` is the final instance state; the source body contains no
assignment to `self.target_size_mb` (the per-call `threshold_mb` is a
local), so the instance threads through unchanged. -/
def VideoCompressor.compress_if_needed (c : VideoCompressor) (env : Env)
    (fs : FS) (video_path : Path) (threshold_mb? : Option ℚ)
    (convert_to_mp4_flag : Bool) :
    (Except Err Path × FS × List Event) × VideoCompressor :=
  let threshold_mb := threshold_mb?.getD c.target_size_mb
  match fs.statSize video_path with
  | .error e => ((.error e, fs, []), c)
  | .ok st_size =>
    let file_size_mb : ℚ := (st_size : ℚ) / (1024 * 1024)
    let needs_compression := file_size_mb > threshold_mb
    let needs_conversion :=
      convert_to_mp4_flag ∧ pyLower video_path.suffix ≠ ".mp4"
    if ¬ needs_compression ∧ ¬ needs_conversion then
      ((.ok video_path, fs, []), c)
    else
      let step :=
        if needs_compression then
          c.compress env fs video_path none none
        else if needs_conversion then
          VideoCompressor.convert_to_mp4 env fs video_path none
        else
          (.ok video_path, fs, [])
      match step with
      | (.error e, fs1, evs) => ((.error e, fs1, evs), c)
      | (.ok processed_path, fs1, evs) =>
        if processed_path ≠ video_path then
          let fs2 := if env.unlink_ok then fs1.remove video_path else fs1
          ((.ok processed_path, fs2, evs ++ [.unlink video_path]), c)
        else
          ((.ok processed_path, fs1, evs), c)

/-- Whether an event is an invocation of the external transcode tool. -/
def Event.isTranscode : Event → Bool
  | .runFfmpegCompress _ _ _ => true
  | .runFfmpegConvert _ _ => true
  | _ => false

/-- Written from the spec's words (§4.1, bitrate budgeting): clamp with the
floor applied first, then the ceiling, both bounds inclusive. -/
def spec_clamp (x lo hi : ℚ) : ℚ := min (max x lo) hi

/-- Written from the spec's words: raw bitrate
`budget_mb * 1024 * 1024 * 8 * 0.95 / duration - 128000`, clamped to
`[500000, 5000000]` floor-first, expressed in whole kilobits per second by
integer truncation of `video_bitrate / 1000`. -/
def spec_bitrate_kbps (budget_mb duration : ℚ) : ℤ :=
  pyTrunc
    (spec_clamp (budget_mb * 1024 * 1024 * 8 * 0.95 / duration - 128000)
      500000 5000000 / 1000)

/-- Concrete fixture: a captured `.mkv` artifact path. -/
def pMkv : Path := ⟨"/tmp", "video", ".mkv"⟩

/-- Concrete fixture: a captured `.mp4` artifact path. -/
def pMp4 : Path := ⟨"/tmp", "video", ".mp4"⟩

/-- Concrete fixture: a filesystem holding a 10 MB `.mkv` artifact. -/
def fsSmallMkv : FS := ⟨[(pMkv, 10 * 1024 * 1024)]⟩

/-- Concrete fixture: a filesystem holding a 10 MB `.mp4` artifact. -/
def fsSmallMp4 : FS := ⟨[(pMp4, 10 * 1024 * 1024)]⟩

/-- Concrete fixture: a filesystem holding a 30 MB `.mkv` artifact. -/
def fsBigMkv : FS := ⟨[(pMkv, 30 * 1024 * 1024)]⟩

/-- Concrete fixture: a well-behaved external world — the container probe
reports `30.0`, `ffmpeg` exits zero and creates its 20 MB output, and
`unlink` succeeds. -/
def envGood : Env :=
  { parseFloat := fun s => if s = "30.0" then some 30 else none
  , probe_fmt := .ok "30.0"
  , probe_stream := .error ()
  , ffmpeg_ok := true
  , ffmpeg_creates := true
  , out_size := 20 * 1024 * 1024
  , unlink_ok := true }

/-- Concrete fixture: an external world whose transcode tool exits zero but
creates no output file (an inconsistent tool report). -/
def envLying : Env :=
  { parseFloat := fun _ => none
  , probe_fmt := .error ()
  , probe_stream := .error ()
  , ffmpeg_ok := true
  , ffmpeg_creates := false
  , out_size := 0
  , unlink_ok := true }

/-- Concrete fixture: an external world whose transcode tool exits non-zero. -/
def envFfmpegFail : Env :=
  { parseFloat := fun _ => none
  , probe_fmt := .error ()
  , probe_stream := .error ()
  , ffmpeg_ok := false
  , ffmpeg_creates := false
  , out_size := 0
  , unlink_ok := true }

/-- Concrete fixture: a well-behaved transcode but failing deletion
(`Path.unlink` raises an `OSError`). -/
def envNoUnlink : Env :=
  { parseFloat := fun s => if s = "30.0" then some 30 else none
  , probe_fmt := .ok "30.0"
  , probe_stream := .error ()
  , ffmpeg_ok := true
  , ffmpeg_creates := true
  , out_size := 20 * 1024 * 1024
  , unlink_ok := false }

/-- Concrete fixture: both probes fail with a tool error, but the transcode
itself succeeds. -/
def envProbeFail : Env :=
  { parseFloat := fun _ => none
  , probe_fmt := .error ()
  , probe_stream := .error ()
  , ffmpeg_ok := true
  , ffmpeg_creates := true
  , out_size := 20 * 1024 * 1024
  , unlink_ok := true }

/-- Concrete fixture: the container-level probe reports a parseable zero
duration. -/
def envZeroDuration : Env :=
  { parseFloat := fun s => if s = "0" then some 0 else none
  , probe_fmt := .ok "0"
  , probe_stream := .error ()
  , ffmpeg_ok := true
  , ffmpeg_creates := true
  , out_size := 0
  , unlink_ok := true }

/-! ## Helper lemmas -/

lemma clamp_lower_bound (x : ℚ) : 500000 ≤ min (max x 500000) 5000000 :=
  le_min (le_max_right _ _) (by norm_num)

lemma clamp_upper_bound (x : ℚ) : min (max x 500000) 5000000 ≤ 5000000 :=
  min_le_right _ _

lemma pyTrunc_bounds {q : ℚ} (h1 : 500 ≤ q) (h2 : q ≤ 5000) :
    500 ≤ pyTrunc q ∧ pyTrunc q ≤ 5000 := by
  have h0 : (0 : ℚ) ≤ q := le_trans (by norm_num) h1
  rw [pyTrunc, if_pos h0]
  constructor
  · exact Int.le_floor.mpr (by exact_mod_cast h1)
  · have hf : (⌊q⌋ : ℚ) ≤ 5000 := le_trans (Int.floor_le q) h2
    exact_mod_cast hf

lemma pyTrunc_intCast (n : ℤ) : pyTrunc (n : ℚ) = n := by
  rw [pyTrunc]
  split
  · exact Int.floor_intCast n
  · exact Int.ceil_intCast n

/-! ## C1 -/

/-- **C1.** For every budget and every positive duration, the bitrate string
computed by `_calculate_bitrate` is exactly the spec's
`clamp((budget_mb * 1024 * 1024 * 8 * 0.95 / duration) - 128000, 500000,
5000000)` with the floor applied before the ceiling, expressed in whole
kilobits per second by integer truncation of `video_bitrate / 1000`; for
duration small enough the result is the maximum bound (5000 k), and for
duration large enough it is the minimum bound (500 k). -/
theorem calculate_bitrate_matches_spec_clamp (c : VideoCompressor)
    (duration : ℚ) (hd : 0 < duration) :
    c.calculate_bitrate duration
        = .ok (toString (spec_bitrate_kbps c.target_size_mb duration) ++ "k")
    ∧ (duration ≤ c.target_size_mb * 1024 * 1024 * 8 * 0.95 / 5128000 →
        spec_bitrate_kbps c.target_size_mb duration = 5000)
    ∧ (c.target_size_mb * 1024 * 1024 * 8 * 0.95 / 628000 ≤ duration →
        spec_bitrate_kbps c.target_size_mb duration = 500) := by
  refine ⟨?_, ?_, ?_⟩
  · rw [VideoCompressor.calculate_bitrate, if_neg hd.ne', spec_bitrate_kbps,
      spec_clamp]
  · intro h
    have htb : 5128000 * duration ≤ c.target_size_mb * 1024 * 1024 * 8 * 0.95 := by
      have := (le_div_iff₀ (by norm_num : (0:ℚ) < 5128000)).mp h
      linarith
    have hraw : (5000000 : ℚ)
        ≤ c.target_size_mb * 1024 * 1024 * 8 * 0.95 / duration - 128000 := by
      have : (5128000 : ℚ) ≤ c.target_size_mb * 1024 * 1024 * 8 * 0.95 / duration :=
        (le_div_iff₀ hd).mpr htb
      linarith
    rw [spec_bitrate_kbps, spec_clamp,
      min_eq_right (le_max_of_le_left hraw)]
    norm_num
    exact_mod_cast pyTrunc_intCast 5000
  · intro h
    have htb : c.target_size_mb * 1024 * 1024 * 8 * 0.95 ≤ 628000 * duration := by
      have := (div_le_iff₀ (by norm_num : (0:ℚ) < 628000)).mp h
      linarith
    have hraw : c.target_size_mb * 1024 * 1024 * 8 * 0.95 / duration - 128000
        ≤ (500000 : ℚ) := by
      have : c.target_size_mb * 1024 * 1024 * 8 * 0.95 / duration ≤ 628000 :=
        (div_le_iff₀ hd).mpr (by linarith)
      linarith
    rw [spec_bitrate_kbps, spec_clamp, max_eq_right hraw,
      min_eq_left (by norm_num)]
    norm_num
    exact_mod_cast pyTrunc_intCast 500

/-- Witness for C1: the theorem applied at budget 25 MB, duration 30 s. -/
theorem calculate_bitrate_matches_spec_clamp_witness :
    VideoCompressor.calculate_bitrate ⟨25⟩ 30
      = .ok (toString (spec_bitrate_kbps 25 30) ++ "k") :=
  (calculate_bitrate_matches_spec_clamp ⟨25⟩ 30 (by norm_num)).1

/-! ## C10 -/

/-- **C10.** The division by `duration` is unguarded: for every positive
duration `_calculate_bitrate` succeeds and returns a string `<k>k` with
`500 ≤ k ≤ 5000`, but for duration 0 — which `_get_duration` can produce
when the probe reports a parseable zero — it raises `ZeroDivisionError`
instead of returning a clamped value. -/
theorem calculate_bitrate_division_unguarded (c : VideoCompressor) :
    (∀ duration : ℚ, 0 < duration → ∃ k : ℤ,
        c.calculate_bitrate duration = .ok (toString k ++ "k")
        ∧ 500 ≤ k ∧ k ≤ 5000)
    ∧ c.calculate_bitrate 0 = .error .zeroDivision
    ∧ (∀ p : Path,
        envZeroDuration.probe_fmt = .ok "0"
        ∧ envZeroDuration.parseFloat "0" = some 0
        ∧ (VideoCompressor.get_duration envZeroDuration p).1 = 0
        ∧ c.calculate_bitrate (VideoCompressor.get_duration envZeroDuration p).1
            = .error .zeroDivision) := by
  have hzero : c.calculate_bitrate 0 = .error .zeroDivision := by
    rw [VideoCompressor.calculate_bitrate, if_pos rfl]
  refine ⟨?_, hzero, ?_⟩
  · intro d hd
    refine ⟨pyTrunc (min (max (c.target_size_mb * 1024 * 1024 * 8 * 0.95 / d
        - 128000) 500000) 5000000 / 1000), ?_, ?_⟩
    · rw [VideoCompressor.calculate_bitrate, if_neg hd.ne']
    · apply pyTrunc_bounds
      · rw [le_div_iff₀ (by norm_num : (0:ℚ) < 1000)]
        have := clamp_lower_bound (c.target_size_mb * 1024 * 1024 * 8 * 0.95 / d
          - 128000)
        linarith
      · rw [div_le_iff₀ (by norm_num : (0:ℚ) < 1000)]
        have := clamp_upper_bound (c.target_size_mb * 1024 * 1024 * 8 * 0.95 / d
          - 128000)
        linarith
  · intro p
    have hdur : (VideoCompressor.get_duration envZeroDuration p).1 = 0 := rfl
    exact ⟨rfl, rfl, hdur, by rw [hdur, hzero]⟩

/-- Witness for C10: the theorem applied at budget 25 MB, with the positive
branch instantiated at duration 30 s. -/
theorem calculate_bitrate_division_unguarded_witness :
    ∃ k : ℤ, VideoCompressor.calculate_bitrate ⟨25⟩ 30
        = .ok (toString k ++ "k") ∧ 500 ≤ k ∧ k ≤ 5000 :=
  (calculate_bitrate_division_unguarded ⟨25⟩).1 30 (by norm_num)

/-! ## C2 -/

lemma FS.statSize_of_not_exists {fs : FS} {p : Path} (h : fs.existsp p = false) :
    fs.statSize p = .error (.fileNotFound p) := by
  rw [FS.existsp] at h
  have hn : fs.files.find? (fun e => e.1 = p) = none :=
    Option.not_isSome_iff_eq_none.mp (by simp [h])
  rw [FS.statSize, hn]

/-- **C2.** Re-processing a compliant artifact is a no-op: when the existing
artifact's size in MB is not strictly above the effective threshold and its
extension already lowercases to `.mp4`, `compress_if_needed` returns the
input path unchanged, the filesystem is untouched, and no external tool is
invoked (empty trace). -/
theorem compress_if_needed_compliant_noop (c : VideoCompressor) (env : Env)
    (fs : FS) (p : Path) (thr? : Option ℚ) (flag : Bool) (sz : Nat)
    (hstat : fs.statSize p = .ok sz)
    (hsize : (sz : ℚ) / (1024 * 1024) ≤ thr?.getD c.target_size_mb)
    (hext : pyLower p.suffix = ".mp4") :
    c.compress_if_needed env fs p thr? flag = ((.ok p, fs, []), c) := by
  have hncv : ¬ (flag = true ∧ pyLower p.suffix ≠ ".mp4") :=
    fun h => h.2 hext
  simp only [VideoCompressor.compress_if_needed, hstat]
  rw [if_pos ⟨not_lt.mpr hsize, hncv⟩]

/-- Witness for C2: a 10 MB `.mp4` artifact under the default 25 MB budget. -/
theorem compress_if_needed_compliant_noop_witness :
    (⟨25⟩ : VideoCompressor).compress_if_needed envGood fsSmallMp4 pMp4 none true
      = ((.ok pMp4, fsSmallMp4, []), ⟨25⟩) :=
  compress_if_needed_compliant_noop ⟨25⟩ envGood fsSmallMp4 pMp4 none true
    (10 * 1024 * 1024) (by decide) (by norm_num) (by decide)

/-! ## C6 -/

/-- **C6.** For every input path that does not reference an existing file,
`compress_if_needed` fails immediately with `FileNotFoundError` before any
probing or transcoding: the trace is empty and the filesystem untouched. -/
theorem missing_input_fails_before_probe (c : VideoCompressor) (env : Env)
    (fs : FS) (p : Path) (thr? : Option ℚ) (flag : Bool)
    (habs : fs.existsp p = false) :
    c.compress_if_needed env fs p thr? flag
      = ((.error (.fileNotFound p), fs, []), c) := by
  simp only [VideoCompressor.compress_if_needed, FS.statSize_of_not_exists habs]

/-- Witness for C6: an empty filesystem. -/
theorem missing_input_fails_before_probe_witness :
    (⟨25⟩ : VideoCompressor).compress_if_needed envGood ⟨[]⟩ pMkv none true
      = ((.error (.fileNotFound pMkv), ⟨[]⟩, []), ⟨25⟩) :=
  missing_input_fails_before_probe ⟨25⟩ envGood ⟨[]⟩ pMkv none true (by decide)

/-! ## Filesystem and path helper lemmas -/

lemma FS.exists_of_statSize_ok {fs : FS} {p : Path} {sz : Nat}
    (h : fs.statSize p = .ok sz) : fs.existsp p = true := by
  rw [FS.statSize] at h
  rw [FS.existsp]
  rcases hf : fs.files.find? (fun e => e.1 = p) with _ | e
  · rw [hf] at h
    exact absurd h (by simp)
  · rw [hf]
    rfl

lemma find?_isSome_filter (l : List (Path × Nat)) (p q : Path) (h : q ≠ p) :
    ((l.filter (fun e => ¬ e.1 = p)).find? (fun e => e.1 = q)).isSome
      = (l.find? (fun e => e.1 = q)).isSome := by
  rw [Bool.eq_iff_iff]
  simp only [List.find?_isSome, List.mem_filter]
  constructor
  · rintro ⟨x, ⟨hx, _⟩, hq⟩
    exact ⟨x, hx, hq⟩
  · rintro ⟨x, hx, hq⟩
    refine ⟨x, ⟨hx, ?_⟩, hq⟩
    have hxq : x.1 = q := by simpa using hq
    simp [hxq, h]

lemma FS.existsp_remove_ne {q p : Path} (fs : FS) (h : q ≠ p) :
    (fs.remove p).existsp q = fs.existsp q := by
  rw [FS.remove, FS.existsp, FS.existsp]
  exact find?_isSome_filter fs.files p q h

lemma FS.existsp_write_self (fs : FS) (p : Path) (sz : Nat) :
    (fs.write p sz).existsp p = true := by
  simp [FS.write, FS.existsp, List.find?_cons]

lemma FS.existsp_write_ne {q p : Path} (fs : FS) (sz : Nat) (h : q ≠ p) :
    (fs.write p sz).existsp q = fs.existsp q := by
  rw [FS.write, FS.existsp, FS.existsp]
  rw [List.find?_cons_of_neg _
    (by simp only [decide_eq_true_eq]; exact fun he : p = q => h he.symm)]
  exact find?_isSome_filter fs.files p q h

lemma with_stem_compressed_ne (p : Path) :
    (p.with_stem (p.stem ++ "_compressed")).with_suffix ".mp4" ≠ p := by
  intro h
  have hs : p.stem ++ "_compressed" = p.stem := congrArg Path.stem h
  have hl := congrArg String.length hs
  rw [String.length_append] at hl
  have h11 : ("_compressed" : String).length = 11 := rfl
  rw [h11] at hl
  omega

lemma with_suffix_mp4_ne {p : Path} (h : pyLower p.suffix ≠ ".mp4") :
    p.with_suffix ".mp4" ≠ p := by
  intro he
  apply h
  have hs : (".mp4" : String) = p.suffix := congrArg Path.suffix he
  rw [← hs]
  decide

/-! ## Probe (`_get_duration`) case lemmas -/

lemma get_duration_fmt_err {env : Env} (p : Path)
    (h : env.probe_fmt = .error ()) :
    VideoCompressor.get_duration env p = (30, [.probeFormat p]) := by
  simp [VideoCompressor.get_duration, h]

lemma get_duration_fmt_parsed {env : Env} (p : Path) {s : String} {v : ℚ}
    (h : env.probe_fmt = .ok s) (h1 : pyStrip s ≠ "") (h2 : pyStrip s ≠ "N/A")
    (h3 : env.parseFloat (pyStrip s) = some v) :
    VideoCompressor.get_duration env p = (v, [.probeFormat p]) := by
  simp only [VideoCompressor.get_duration, h]
  rw [if_pos ⟨h1, h2⟩, h3]

lemma get_duration_fmt_unparseable {env : Env} (p : Path) {s : String}
    (h : env.probe_fmt = .ok s) (h1 : pyStrip s ≠ "") (h2 : pyStrip s ≠ "N/A")
    (h3 : env.parseFloat (pyStrip s) = none) :
    VideoCompressor.get_duration env p = (30, [.probeFormat p]) := by
  simp only [VideoCompressor.get_duration, h]
  rw [if_pos ⟨h1, h2⟩, h3]

lemma get_duration_stream_err {env : Env} (p : Path) {s : String}
    (h : env.probe_fmt = .ok s) (hu : pyStrip s = "" ∨ pyStrip s = "N/A")
    (h2 : env.probe_stream = .error ()) :
    VideoCompressor.get_duration env p
      = (30, [.probeFormat p, .probeStream p]) := by
  simp only [VideoCompressor.get_duration, h]
  rw [if_neg (fun hc => hu.elim hc.1 hc.2), h2]

lemma get_duration_stream_parsed {env : Env} (p : Path) {s t : String} {v : ℚ}
    (h : env.probe_fmt = .ok s) (hu : pyStrip s = "" ∨ pyStrip s = "N/A")
    (h2 : env.probe_stream = .ok t) (h3 : pyStrip t ≠ "")
    (h4 : pyStrip t ≠ "N/A") (h5 : env.parseFloat (pyStrip t) = some v) :
    VideoCompressor.get_duration env p
      = (v, [.probeFormat p, .probeStream p]) := by
  simp only [VideoCompressor.get_duration, h]
  rw [if_neg (fun hc => hu.elim hc.1 hc.2), h2]
  simp only []
  rw [if_pos ⟨h3, h4⟩, h5]

lemma get_duration_stream_unknown {env : Env} (p : Path) {s t : String}
    (h : env.probe_fmt = .ok s) (hu : pyStrip s = "" ∨ pyStrip s = "N/A")
    (h2 : env.probe_stream = .ok t)
    (hv : pyStrip t = "" ∨ pyStrip t = "N/A"
          ∨ env.parseFloat (pyStrip t) = none) :
    VideoCompressor.get_duration env p
      = (30, [.probeFormat p, .probeStream p]) := by
  simp only [VideoCompressor.get_duration, h]
  rw [if_neg (fun hc => hu.elim hc.1 hc.2), h2]
  simp only []
  rcases hv with hv | hv | hv
  · rw [if_neg (fun hc => hc.1 hv)]
  · rw [if_neg (fun hc => hc.2 hv)]
  · by_cases ht : pyStrip t ≠ "" ∧ pyStrip t ≠ "N/A"
    · rw [if_pos ht, hv]
    · rw [if_neg ht]

lemma get_duration_trace (env : Env) (p : Path) :
    (VideoCompressor.get_duration env p).2 = [.probeFormat p]
    ∨ (VideoCompressor.get_duration env p).2
        = [.probeFormat p, .probeStream p] := by
  cases h : env.probe_fmt with
  | error u =>
    left
    rw [get_duration_fmt_err p (by rw [h])]
  | ok s =>
    by_cases h1 : pyStrip s ≠ "" ∧ pyStrip s ≠ "N/A"
    · cases h3 : env.parseFloat (pyStrip s) with
      | some v => left; rw [get_duration_fmt_parsed p h h1.1 h1.2 h3]
      | none => left; rw [get_duration_fmt_unparseable p h h1.1 h1.2 h3]
    · have hu : pyStrip s = "" ∨ pyStrip s = "N/A" := by
        by_contra hc
        push_neg at hc
        exact h1 ⟨hc.1, hc.2⟩
      cases h2 : env.probe_stream with
      | error u => right; rw [get_duration_stream_err p h hu (by rw [h2])]
      | ok t =>
        by_cases h3 : pyStrip t ≠ "" ∧ pyStrip t ≠ "N/A"
        · cases h4 : env.parseFloat (pyStrip t) with
          | some v =>
            right; rw [get_duration_stream_parsed p h hu h2 h3.1 h3.2 h4]
          | none =>
            right; rw [get_duration_stream_unknown p h hu h2 (Or.inr (Or.inr h4))]
        · right
          have hv : pyStrip t = "" ∨ pyStrip t = "N/A" := by
            by_contra hc
            push_neg at hc
            exact h3 ⟨hc.1, hc.2⟩
          rcases hv with hv | hv
          · rw [get_duration_stream_unknown p h hu h2 (Or.inl hv)]
          · rw [get_duration_stream_unknown p h hu h2 (Or.inr (Or.inl hv))]

/-! ## Branch characterizations of `compress` and `convert_to_mp4` -/

lemma compress_missing (c : VideoCompressor) (env : Env) (fs : FS) (inp : Path)
    (hex : fs.existsp inp = false) :
    c.compress env fs inp none none = (.error (.fileNotFound inp), fs, []) := by
  simp only [VideoCompressor.compress]
  rw [if_pos (by simp [hex])]

lemma compress_zero_duration (c : VideoCompressor) (env : Env) (fs : FS)
    (inp : Path) (hex : fs.existsp inp = true)
    (hdur : (VideoCompressor.get_duration env inp).1 = 0) :
    c.compress env fs inp none none
      = (.error .zeroDivision, fs, (VideoCompressor.get_duration env inp).2) := by
  simp only [VideoCompressor.compress]
  rw [if_neg (by simp [hex])]
  rw [VideoCompressor.calculate_bitrate, if_pos hdur]

lemma compress_ffmpeg_fail (c : VideoCompressor) (env : Env) (fs : FS)
    (inp : Path) (hex : fs.existsp inp = true)
    (hdur : (VideoCompressor.get_duration env inp).1 ≠ 0)
    (hff : env.ffmpeg_ok = false) :
    ∃ b, c.calculate_bitrate (VideoCompressor.get_duration env inp).1 = .ok b
    ∧ c.compress env fs inp none none
      = (.error (.runtime "Video compression failed"), fs,
         (VideoCompressor.get_duration env inp).2
           ++ [.runFfmpegCompress inp
                ((inp.with_stem (inp.stem ++ "_compressed")).with_suffix ".mp4")
                b]) := by
  have hb : c.calculate_bitrate (VideoCompressor.get_duration env inp).1
      = .ok (toString (pyTrunc (min (max (c.target_size_mb * 1024 * 1024 * 8
          * 0.95 / (VideoCompressor.get_duration env inp).1 - 128000) 500000)
          5000000 / 1000)) ++ "k") := by
    rw [VideoCompressor.calculate_bitrate, if_neg hdur]
  refine ⟨_, hb, ?_⟩
  simp only [VideoCompressor.compress]
  rw [if_neg (by simp [hex]), hb]
  simp only [VideoCompressor.run_ffmpeg, hff]
  rw [if_neg (by simp)]

lemma compress_ok_of_good_env (c : VideoCompressor) (env : Env) (fs : FS)
    (inp : Path) (hex : fs.existsp inp = true)
    (hdur : (VideoCompressor.get_duration env inp).1 ≠ 0)
    (hok : env.ffmpeg_ok = true) (hcr : env.ffmpeg_creates = true) :
    ∃ b, c.calculate_bitrate (VideoCompressor.get_duration env inp).1 = .ok b
    ∧ c.compress env fs inp none none
      = (.ok ((inp.with_stem (inp.stem ++ "_compressed")).with_suffix ".mp4"),
         fs.write ((inp.with_stem (inp.stem ++ "_compressed")).with_suffix
           ".mp4") env.out_size,
         (VideoCompressor.get_duration env inp).2
           ++ [.runFfmpegCompress inp
                ((inp.with_stem (inp.stem ++ "_compressed")).with_suffix ".mp4")
                b]) := by
  have hb : c.calculate_bitrate (VideoCompressor.get_duration env inp).1
      = .ok (toString (pyTrunc (min (max (c.target_size_mb * 1024 * 1024 * 8
          * 0.95 / (VideoCompressor.get_duration env inp).1 - 128000) 500000)
          5000000 / 1000)) ++ "k") := by
    rw [VideoCompressor.calculate_bitrate, if_neg hdur]
  refine ⟨_, hb, ?_⟩
  simp only [VideoCompressor.compress]
  rw [if_neg (by simp [hex]), hb]
  simp only [VideoCompressor.run_ffmpeg, hok, hcr, if_true]
  rw [if_neg (by simp [FS.existsp_write_self])]

lemma compress_no_output (c : VideoCompressor) (env : Env) (fs : FS)
    (inp : Path) (hex : fs.existsp inp = true)
    (hdur : (VideoCompressor.get_duration env inp).1 ≠ 0)
    (hok : env.ffmpeg_ok = true) (hcr : env.ffmpeg_creates = false)
    (hout : fs.existsp
      ((inp.with_stem (inp.stem ++ "_compressed")).with_suffix ".mp4")
      = false) :
    ∃ b, c.calculate_bitrate (VideoCompressor.get_duration env inp).1 = .ok b
    ∧ c.compress env fs inp none none
      = (.error (.runtime "Failed to create compressed video"), fs,
         (VideoCompressor.get_duration env inp).2
           ++ [.runFfmpegCompress inp
                ((inp.with_stem (inp.stem ++ "_compressed")).with_suffix ".mp4")
                b]) := by
  have hb : c.calculate_bitrate (VideoCompressor.get_duration env inp).1
      = .ok (toString (pyTrunc (min (max (c.target_size_mb * 1024 * 1024 * 8
          * 0.95 / (VideoCompressor.get_duration env inp).1 - 128000) 500000)
          5000000 / 1000)) ++ "k") := by
    rw [VideoCompressor.calculate_bitrate, if_neg hdur]
  refine ⟨toString (pyTrunc (min (max (c.target_size_mb * 1024 * 1024 * 8
    * 0.95 / (VideoCompressor.get_duration env inp).1 - 128000) 500000)
    5000000 / 1000)) ++ "k", hb, ?_⟩
  simp only [VideoCompressor.compress]
  rw [if_neg (by simp [hex]), hb]
  simp only [VideoCompressor.run_ffmpeg, hok, hcr, if_true, if_false,
    Bool.false_eq_true]
  rw [if_pos (by simp [hout])]

lemma compress_stale_output (c : VideoCompressor) (env : Env) (fs : FS)
    (inp : Path) (hex : fs.existsp inp = true)
    (hdur : (VideoCompressor.get_duration env inp).1 ≠ 0)
    (hok : env.ffmpeg_ok = true) (hcr : env.ffmpeg_creates = false)
    (hout : fs.existsp
      ((inp.with_stem (inp.stem ++ "_compressed")).with_suffix ".mp4")
      = true) :
    ∃ b, c.calculate_bitrate (VideoCompressor.get_duration env inp).1 = .ok b
    ∧ c.compress env fs inp none none
      = (.ok ((inp.with_stem (inp.stem ++ "_compressed")).with_suffix ".mp4"),
         fs,
         (VideoCompressor.get_duration env inp).2
           ++ [.runFfmpegCompress inp
                ((inp.with_stem (inp.stem ++ "_compressed")).with_suffix ".mp4")
                b]) := by
  have hb : c.calculate_bitrate (VideoCompressor.get_duration env inp).1
      = .ok (toString (pyTrunc (min (max (c.target_size_mb * 1024 * 1024 * 8
          * 0.95 / (VideoCompressor.get_duration env inp).1 - 128000) 500000)
          5000000 / 1000)) ++ "k") := by
    rw [VideoCompressor.calculate_bitrate, if_neg hdur]
  refine ⟨toString (pyTrunc (min (max (c.target_size_mb * 1024 * 1024 * 8
    * 0.95 / (VideoCompressor.get_duration env inp).1 - 128000) 500000)
    5000000 / 1000)) ++ "k", hb, ?_⟩
  simp only [VideoCompressor.compress]
  rw [if_neg (by simp [hex]), hb]
  simp only [VideoCompressor.run_ffmpeg, hok, hcr, if_true, if_false,
    Bool.false_eq_true]
  rw [if_neg (by simp [hout])]

lemma convert_missing (env : Env) (fs : FS) (inp : Path)
    (hex : fs.existsp inp = false) :
    VideoCompressor.convert_to_mp4 env fs inp none
      = (.error (.fileNotFound inp), fs, []) := by
  simp only [VideoCompressor.convert_to_mp4]
  rw [if_pos (by simp [hex])]

lemma convert_skip (env : Env) (fs : FS) (inp : Path)
    (hex : fs.existsp inp = true) (hs : inp.suffix = ".mp4") :
    VideoCompressor.convert_to_mp4 env fs inp none = (.ok inp, fs, []) := by
  have hout : inp.with_suffix ".mp4" = inp := by
    rw [Path.with_suffix, ← hs]
  simp only [VideoCompressor.convert_to_mp4]
  rw [if_neg (by simp [hex])]
  rw [if_pos ⟨by rw [hs]; decide, hout⟩]

lemma convert_ffmpeg_fail (env : Env) (fs : FS) (inp : Path)
    (hex : fs.existsp inp = true)
    (hns : ¬ (pyLower inp.suffix = ".mp4" ∧ inp.with_suffix ".mp4" = inp))
    (hff : env.ffmpeg_ok = false) :
    VideoCompressor.convert_to_mp4 env fs inp none
      = (.error (.runtime "MP4 conversion failed"), fs,
         [.runFfmpegConvert inp (inp.with_suffix ".mp4")]) := by
  simp only [VideoCompressor.convert_to_mp4]
  rw [if_neg (by simp [hex])]
  rw [if_neg hns]
  rw [if_neg (by simp [hff])]

lemma convert_ok_of_good_env (env : Env) (fs : FS) (inp : Path)
    (hex : fs.existsp inp = true) (hsuf : pyLower inp.suffix ≠ ".mp4")
    (hok : env.ffmpeg_ok = true) :
    VideoCompressor.convert_to_mp4 env fs inp none
      = (.ok (inp.with_suffix ".mp4"),
         if env.ffmpeg_creates then fs.write (inp.with_suffix ".mp4")
           env.out_size else fs,
         [.runFfmpegConvert inp (inp.with_suffix ".mp4")]) := by
  simp only [VideoCompressor.convert_to_mp4]
  rw [if_neg (by simp [hex])]
  rw [if_neg (fun hc => hsuf hc.1)]
  rw [if_pos (by simp [hok])]

lemma compress_total_cases (c : VideoCompressor) (env : Env) (fs : FS)
    (inp : Path) :
    c.compress env fs inp none none = (.error (.fileNotFound inp), fs, [])
    ∨ c.compress env fs inp none none
        = (.error .zeroDivision, fs, (VideoCompressor.get_duration env inp).2)
    ∨ (∃ b m, c.calculate_bitrate (VideoCompressor.get_duration env inp).1
          = .ok b
        ∧ c.compress env fs inp none none
        = (.error (.runtime m), fs,
           (VideoCompressor.get_duration env inp).2
             ++ [.runFfmpegCompress inp
                  ((inp.with_stem (inp.stem ++ "_compressed")).with_suffix
                    ".mp4") b]))
    ∨ (∃ b fs', c.calculate_bitrate (VideoCompressor.get_duration env inp).1
          = .ok b
        ∧ c.compress env fs inp none none
        = (.ok ((inp.with_stem (inp.stem ++ "_compressed")).with_suffix
            ".mp4"), fs',
           (VideoCompressor.get_duration env inp).2
             ++ [.runFfmpegCompress inp
                  ((inp.with_stem (inp.stem ++ "_compressed")).with_suffix
                    ".mp4") b])
        ∧ fs'.existsp ((inp.with_stem (inp.stem ++ "_compressed")).with_suffix
            ".mp4") = true
        ∧ (fs' = fs ∨ fs' = fs.write ((inp.with_stem (inp.stem
            ++ "_compressed")).with_suffix ".mp4") env.out_size)) := by
  by_cases hex : fs.existsp inp = true
  · by_cases hdur : (VideoCompressor.get_duration env inp).1 = 0
    · exact Or.inr (Or.inl (compress_zero_duration c env fs inp hex hdur))
    · cases hok : env.ffmpeg_ok with
      | false =>
        obtain ⟨b, hb, hc⟩ := compress_ffmpeg_fail c env fs inp hex hdur hok
        exact Or.inr (Or.inr (Or.inl ⟨b, _, hb, hc⟩))
      | true =>
        cases hcr : env.ffmpeg_creates with
        | true =>
          obtain ⟨b, hb, hc⟩ := compress_ok_of_good_env c env fs inp hex hdur hok hcr
          refine Or.inr (Or.inr (Or.inr ⟨b, _, hb, hc, ?_, Or.inr rfl⟩))
          exact FS.existsp_write_self fs _ env.out_size
        | false =>
          cases hout : fs.existsp
              ((inp.with_stem (inp.stem ++ "_compressed")).with_suffix ".mp4") with
          | false =>
            obtain ⟨b, hb, hc⟩ := compress_no_output c env fs inp hex hdur hok hcr hout
            exact Or.inr (Or.inr (Or.inl ⟨b, _, hb, hc⟩))
          | true =>
            obtain ⟨b, hb, hc⟩ := compress_stale_output c env fs inp hex hdur hok hcr hout
            exact Or.inr (Or.inr (Or.inr ⟨b, fs, hb, hc, hout, Or.inl rfl⟩))
  · have hex' : fs.existsp inp = false := by simpa using hex
    exact Or.inl (compress_missing c env fs inp hex')

lemma convert_total_cases (env : Env) (fs : FS) (inp : Path) :
    VideoCompressor.convert_to_mp4 env fs inp none
        = (.error (.fileNotFound inp), fs, [])
    ∨ (VideoCompressor.convert_to_mp4 env fs inp none = (.ok inp, fs, [])
        ∧ inp.suffix = ".mp4")
    ∨ VideoCompressor.convert_to_mp4 env fs inp none
        = (.error (.runtime "MP4 conversion failed"), fs,
           [.runFfmpegConvert inp (inp.with_suffix ".mp4")])
    ∨ (VideoCompressor.convert_to_mp4 env fs inp none
        = (.ok (inp.with_suffix ".mp4"),
           if env.ffmpeg_creates then fs.write (inp.with_suffix ".mp4")
             env.out_size else fs,
           [.runFfmpegConvert inp (inp.with_suffix ".mp4")])) := by
  by_cases hex : fs.existsp inp = true
  · by_cases hskip : pyLower inp.suffix = ".mp4" ∧ inp.with_suffix ".mp4" = inp
    · have hs : inp.suffix = ".mp4" := (congrArg Path.suffix hskip.2).symm
      exact Or.inr (Or.inl ⟨convert_skip env fs inp hex hs, hs⟩)
    · cases hok : env.ffmpeg_ok with
      | false =>
        exact Or.inr (Or.inr (Or.inl (convert_ffmpeg_fail env fs inp hex hskip hok)))
      | true =>
        refine Or.inr (Or.inr (Or.inr ?_))
        simp only [VideoCompressor.convert_to_mp4]
        rw [if_neg (by simp [hex])]
        rw [if_neg hskip]
        rw [if_pos (by simp [hok])]
  · have hex' : fs.existsp inp = false := by simpa using hex
    exact Or.inl (convert_missing env fs inp hex')

lemma get_duration_trace_of_fmt_unknown {env : Env} {s : String} (p : Path)
    (h : env.probe_fmt = .ok s) (hu : pyStrip s = "" ∨ pyStrip s = "N/A") :
    (VideoCompressor.get_duration env p).2
      = [.probeFormat p, .probeStream p] := by
  simp only [VideoCompressor.get_duration, h]
  rw [if_neg (fun hc => hu.elim hc.1 hc.2)]
  cases h2 : env.probe_stream with
  | error u => rfl
  | ok t =>
    dsimp only
    split
    · cases h4 : env.parseFloat (pyStrip t) <;> rfl
    · rfl

/-! ## C5 -/

/-- **C5.** The shrink path's duration probe requests the container-level
duration first; when it yields an empty or `N/A` value the first video
stream's duration is requested next; whenever no probe attempt yields a
usable value (tool error, unparseable value, or still unknown) the default
of 30 seconds is used, `_get_duration` itself never raises, and a
shrink-path `compress_if_needed` run whose probes all fail still completes
successfully when the transcode itself succeeds. -/
theorem duration_probe_fallback :
    (∀ (env : Env) (p : Path) (s : String), env.probe_fmt = .ok s →
        (pyStrip s = "" ∨ pyStrip s = "N/A") →
        (VideoCompressor.get_duration env p).2
          = [.probeFormat p, .probeStream p])
    ∧ (∀ (env : Env) (p : Path), env.probe_fmt = .error () →
        VideoCompressor.get_duration env p = (30, [.probeFormat p]))
    ∧ (∀ (env : Env) (p : Path) (s : String), env.probe_fmt = .ok s →
        pyStrip s ≠ "" → pyStrip s ≠ "N/A" →
        env.parseFloat (pyStrip s) = none →
        VideoCompressor.get_duration env p = (30, [.probeFormat p]))
    ∧ (∀ (env : Env) (p : Path) (s : String), env.probe_fmt = .ok s →
        (pyStrip s = "" ∨ pyStrip s = "N/A") → env.probe_stream = .error () →
        VideoCompressor.get_duration env p
          = (30, [.probeFormat p, .probeStream p]))
    ∧ (∀ (env : Env) (p : Path) (s t : String), env.probe_fmt = .ok s →
        (pyStrip s = "" ∨ pyStrip s = "N/A") → env.probe_stream = .ok t →
        (pyStrip t = "" ∨ pyStrip t = "N/A"
          ∨ env.parseFloat (pyStrip t) = none) →
        VideoCompressor.get_duration env p
          = (30, [.probeFormat p, .probeStream p]))
    ∧ (∀ (c : VideoCompressor) (env : Env) (fs : FS) (p : Path)
        (thr? : Option ℚ) (flag : Bool) (sz : Nat),
        env.probe_fmt = .error () → env.ffmpeg_ok = true →
        env.ffmpeg_creates = true → fs.statSize p = .ok sz →
        (sz : ℚ) / (1024 * 1024) > thr?.getD c.target_size_mb →
        (c.compress_if_needed env fs p thr? flag).1.1
          = .ok ((p.with_stem (p.stem ++ "_compressed")).with_suffix ".mp4")) := by
  refine ⟨?_, ?_, ?_, ?_, ?_, ?_⟩
  · intro env p s h hu
    exact get_duration_trace_of_fmt_unknown p h hu
  · intro env p h
    exact get_duration_fmt_err p h
  · intro env p s h h1 h2 h3
    exact get_duration_fmt_unparseable p h h1 h2 h3
  · intro env p s h hu h2
    exact get_duration_stream_err p h hu h2
  · intro env p s t h hu h2 hv
    exact get_duration_stream_unknown p h hu h2 hv
  · intro c env fs p thr? flag sz hpf hok hcr hstat hgt
    have hex := FS.exists_of_statSize_ok hstat
    have hgd := get_duration_fmt_err p hpf
    have hdur : (VideoCompressor.get_duration env p).1 ≠ 0 := by
      rw [hgd]
      norm_num
    obtain ⟨b, hb, hcomp⟩ := compress_ok_of_good_env c env fs p hex hdur hok hcr
    simp only [VideoCompressor.compress_if_needed, hstat]
    rw [if_neg (fun hc => hc.1 hgt), if_pos hgt]
    simp only [hcomp]
    rw [if_pos (with_stem_compressed_ne p)]

/-- Witness for C5: a shrink run on a 30 MB `.mkv` whose probes both fail
still succeeds, applying the theorem's final conjunct. -/
theorem duration_probe_fallback_witness :
    ((⟨25⟩ : VideoCompressor).compress_if_needed envProbeFail fsBigMkv
        pMkv none true).1.1
      = .ok ((pMkv.with_stem (pMkv.stem ++ "_compressed")).with_suffix
          ".mp4") :=
  duration_probe_fallback.2.2.2.2.2 ⟨25⟩ envProbeFail fsBigMkv pMkv none true
    (30 * 1024 * 1024) rfl rfl rfl (by decide) (by norm_num [Option.getD])

/-! ## C4 -/

lemma probe_trace_no_transcode (env : Env) (inp : Path) :
    ∀ e ∈ (VideoCompressor.get_duration env inp).2, e.isTranscode = false := by
  rcases get_duration_trace env inp with h | h <;> rw [h] <;> intro e he
  · have : e = .probeFormat inp := by simpa using he
    rw [this]
    rfl
  · have : e = .probeFormat inp ∨ e = .probeStream inp := by simpa using he
    rcases this with h' | h' <;> rw [h'] <;> rfl

lemma compress_fail_cases (c : VideoCompressor) (env : Env) (fs : FS)
    (inp : Path) (hff : env.ffmpeg_ok = false) :
    (c.compress env fs inp none none).2.1 = fs
    ∧ (∀ q, (c.compress env fs inp none none).1 ≠ .ok q)
    ∧ ((∃ e ∈ (c.compress env fs inp none none).2.2, e.isTranscode = true) →
        (c.compress env fs inp none none).1
          = .error (.runtime "Video compression failed")) := by
  by_cases hex : fs.existsp inp = true
  · by_cases hdur : (VideoCompressor.get_duration env inp).1 = 0
    · rw [compress_zero_duration c env fs inp hex hdur]
      refine ⟨rfl, by simp, ?_⟩
      rintro ⟨e, he, ht⟩
      have := probe_trace_no_transcode env inp e he
      rw [this] at ht
      exact absurd ht (by simp)
    · obtain ⟨b, hb, hcomp⟩ := compress_ffmpeg_fail c env fs inp hex hdur hff
      rw [hcomp]
      exact ⟨rfl, by simp, fun _ => rfl⟩
  · have hex' : fs.existsp inp = false := by simpa using hex
    rw [compress_missing c env fs inp hex']
    exact ⟨rfl, by simp, by simp⟩

lemma convert_fail_cases (env : Env) (fs : FS) (inp : Path)
    (hff : env.ffmpeg_ok = false) :
    (VideoCompressor.convert_to_mp4 env fs inp none).2.1 = fs
    ∧ (∀ q, (VideoCompressor.convert_to_mp4 env fs inp none).1 = .ok q →
        q = inp ∧ (VideoCompressor.convert_to_mp4 env fs inp none).2.2 = [])
    ∧ ((∃ e ∈ (VideoCompressor.convert_to_mp4 env fs inp none).2.2,
          e.isTranscode = true) →
        (VideoCompressor.convert_to_mp4 env fs inp none).1
          = .error (.runtime "MP4 conversion failed")) := by
  by_cases hex : fs.existsp inp = true
  · by_cases hskip : pyLower inp.suffix = ".mp4" ∧ inp.with_suffix ".mp4" = inp
    · have hs : inp.suffix = ".mp4" := by
        have := congrArg Path.suffix hskip.2
        exact this.symm
      rw [convert_skip env fs inp hex hs]
      refine ⟨rfl, ?_, by simp⟩
      intro q hq
      refine ⟨?_, rfl⟩
      have : inp = q := by simpa using hq
      exact this.symm
    · rw [convert_ffmpeg_fail env fs inp hex hskip hff]
      exact ⟨rfl, by simp, fun _ => rfl⟩
  · have hex' : fs.existsp inp = false := by simpa using hex
    rw [convert_missing env fs inp hex']
    exact ⟨rfl, by simp, by simp⟩

/-- **C4.** When the external transcode tool exits non-zero, any
`compress_if_needed` invocation leaves the filesystem unchanged (in
particular the original artifact stays intact), and whenever a transcode
was actually attempted the call raises a `RuntimeError` processing failure
rather than returning an output path. -/
theorem ffmpeg_failure_propagates (c : VideoCompressor) (env : Env) (fs : FS)
    (p : Path) (thr? : Option ℚ) (flag : Bool) (hff : env.ffmpeg_ok = false) :
    (c.compress_if_needed env fs p thr? flag).1.2.1 = fs
    ∧ ((∃ e ∈ (c.compress_if_needed env fs p thr? flag).1.2.2,
          e.isTranscode = true) →
        ∃ m, (c.compress_if_needed env fs p thr? flag).1.1
          = .error (.runtime m)) := by
  rcases hstat : fs.statSize p with e | sz
  · simp only [VideoCompressor.compress_if_needed, hstat]
    exact ⟨by simp, by simp⟩
  · simp only [VideoCompressor.compress_if_needed, hstat]
    by_cases hnc : (sz : ℚ) / (1024 * 1024) > thr?.getD c.target_size_mb
    · rw [if_neg (fun hc => hc.1 hnc), if_pos hnc]
      obtain ⟨hfs, hnok, hrt⟩ := compress_fail_cases c env fs p hff
      rcases hres : c.compress env fs p none none with ⟨r, fs1, evs⟩
      rw [hres] at hfs hnok hrt
      rcases r with er | q
      · exact ⟨hfs, fun hpre => ⟨"Video compression failed", by
          have := hrt hpre
          simp only at this ⊢
          rw [this]⟩⟩
      · exact absurd rfl (hnok q)
    · by_cases hcv : flag = true ∧ pyLower p.suffix ≠ ".mp4"
      · rw [if_neg (fun hc => hc.2 hcv), if_neg hnc, if_pos hcv]
        obtain ⟨hfs, hok', hrt⟩ := convert_fail_cases env fs p hff
        rcases hres : VideoCompressor.convert_to_mp4 env fs p none
          with ⟨r, fs1, evs⟩
        rw [hres] at hfs hok' hrt
        rcases r with er | q
        · exact ⟨hfs, fun hpre => ⟨"MP4 conversion failed", by
            have := hrt hpre
            simp only at this ⊢
            rw [this]⟩⟩
        · obtain ⟨hq, hevs⟩ := hok' q rfl
          subst hq
          subst hevs
          dsimp only
          rw [if_neg (fun h => h rfl)]
          exact ⟨hfs, by simp⟩
      · rw [if_pos ⟨hnc, hcv⟩]
        exact ⟨by simp, by simp⟩

/-- Witness for C4: the theorem applied to a 30 MB `.mkv` shrink run whose
transcode tool exits non-zero. -/
theorem ffmpeg_failure_propagates_witness :
    ((⟨25⟩ : VideoCompressor).compress_if_needed envFfmpegFail fsBigMkv pMkv
        none true).1.2.1 = fsBigMkv
    ∧ ((∃ e ∈ ((⟨25⟩ : VideoCompressor).compress_if_needed envFfmpegFail
          fsBigMkv pMkv none true).1.2.2, e.isTranscode = true) →
        ∃ m, ((⟨25⟩ : VideoCompressor).compress_if_needed envFfmpegFail
          fsBigMkv pMkv none true).1.1 = .error (.runtime m)) :=
  ffmpeg_failure_propagates ⟨25⟩ envFfmpegFail fsBigMkv pMkv none true rfl

/-! ## C3 -/

/-- Counterexample to C3 as stated: on the format-only conversion path, when
the transcode tool reports success (`ffmpeg_ok = true`) without creating its
output file, `compress_if_needed` raises no error and returns a path that
does not exist on disk — the conversion path performs no post-run existence
check. -/
theorem convert_path_missing_output_cex :
    ((⟨25⟩ : VideoCompressor).compress_if_needed envLying fsSmallMkv pMkv
        none true).1.1 = .ok pMp4
    ∧ ((⟨25⟩ : VideoCompressor).compress_if_needed envLying fsSmallMkv pMkv
        none true).1.2.1.existsp pMp4 = false
    ∧ envLying.ffmpeg_ok = true := by
  have h1 : pyLower ".mkv" = ".mkv" := by decide
  have hrun : (⟨25⟩ : VideoCompressor).compress_if_needed envLying fsSmallMkv
      pMkv none true
      = ((.ok pMp4, ⟨[]⟩, [.runFfmpegConvert pMkv pMp4, .unlink pMkv]),
         ⟨25⟩) := by
    norm_num [VideoCompressor.compress_if_needed,
      VideoCompressor.convert_to_mp4, FS.statSize, FS.write, FS.remove,
      fsSmallMkv, envLying, pMkv, pMp4, h1, Path.with_suffix, Option.getD]
    decide
  rw [hrun]
  exact ⟨rfl, rfl, rfl⟩

/-- **C3 (amended).** On the shrink path, `compress_if_needed` verifies its
output: a successful return implies the returned path exists on disk
afterwards; a non-zero tool exit yields a `RuntimeError`; and a reported
success without an output file (and no stale output pre-existing) also
yields a `RuntimeError`.  (The format-only conversion path performs no such
verification — see the counterexample.) -/
theorem shrink_path_verifies_output (c : VideoCompressor) (env : Env)
    (fs : FS) (p : Path) (thr? : Option ℚ) (flag : Bool) (sz : Nat)
    (hstat : fs.statSize p = .ok sz)
    (hbig : (sz : ℚ) / (1024 * 1024) > thr?.getD c.target_size_mb) :
    (∀ q, (c.compress_if_needed env fs p thr? flag).1.1 = .ok q →
        (c.compress_if_needed env fs p thr? flag).1.2.1.existsp q = true)
    ∧ (env.ffmpeg_ok = false → (VideoCompressor.get_duration env p).1 ≠ 0 →
        (c.compress_if_needed env fs p thr? flag).1.1
          = .error (.runtime "Video compression failed"))
    ∧ (env.ffmpeg_ok = true → env.ffmpeg_creates = false →
        (VideoCompressor.get_duration env p).1 ≠ 0 →
        fs.existsp ((p.with_stem (p.stem ++ "_compressed")).with_suffix
          ".mp4") = false →
        (c.compress_if_needed env fs p thr? flag).1.1
          = .error (.runtime "Failed to create compressed video")) := by
  have hex := FS.exists_of_statSize_ok hstat
  refine ⟨?_, ?_, ?_⟩
  · intro q hq
    simp only [VideoCompressor.compress_if_needed, hstat] at hq ⊢
    rw [if_neg (fun hc => hc.1 hbig), if_pos hbig] at hq ⊢
    rcases compress_total_cases c env fs p with h | h | ⟨b, m, hb, h⟩
      | ⟨b, fs', hb, h, hexo, hfs'⟩
    · simp [h] at hq
    · simp [h] at hq
    · simp [h] at hq
    · simp only [h] at hq ⊢
      rw [if_pos (with_stem_compressed_ne p)] at hq ⊢
      have hq' : q = (p.with_stem (p.stem ++ "_compressed")).with_suffix
          ".mp4" := by
        have := hq.symm
        simpa using this
      subst hq'
      cases hu : env.unlink_ok with
      | false => simpa using hexo
      | true =>
        simp only [if_true]
        rw [FS.existsp_remove_ne fs' (with_stem_compressed_ne p)]
        exact hexo
  · intro hff hdur
    obtain ⟨b, hb, hc⟩ := compress_ffmpeg_fail c env fs p hex hdur hff
    simp only [VideoCompressor.compress_if_needed, hstat]
    rw [if_neg (fun hc' => hc'.1 hbig), if_pos hbig]
    simp only [hc]
  · intro hok hcr hdur hout
    obtain ⟨b, hb, hc⟩ := compress_no_output c env fs p hex hdur hok hcr hout
    simp only [VideoCompressor.compress_if_needed, hstat]
    rw [if_neg (fun hc' => hc'.1 hbig), if_pos hbig]
    simp only [hc]

/-- Witness for the amended C3: a 30 MB `.mkv` shrink run in a well-behaved
environment. -/
theorem shrink_path_verifies_output_witness :
    (∀ q, ((⟨25⟩ : VideoCompressor).compress_if_needed envGood fsBigMkv pMkv
        none true).1.1 = .ok q →
      ((⟨25⟩ : VideoCompressor).compress_if_needed envGood fsBigMkv pMkv
        none true).1.2.1.existsp q = true)
    ∧ (envGood.ffmpeg_ok = false →
        (VideoCompressor.get_duration envGood pMkv).1 ≠ 0 →
        ((⟨25⟩ : VideoCompressor).compress_if_needed envGood fsBigMkv pMkv
          none true).1.1 = .error (.runtime "Video compression failed"))
    ∧ (envGood.ffmpeg_ok = true → envGood.ffmpeg_creates = false →
        (VideoCompressor.get_duration envGood pMkv).1 ≠ 0 →
        fsBigMkv.existsp ((pMkv.with_stem (pMkv.stem
          ++ "_compressed")).with_suffix ".mp4") = false →
        ((⟨25⟩ : VideoCompressor).compress_if_needed envGood fsBigMkv pMkv
          none true).1.1
          = .error (.runtime "Failed to create compressed video")) :=
  shrink_path_verifies_output ⟨25⟩ envGood fsBigMkv pMkv none true
    (30 * 1024 * 1024) (by decide) (by norm_num [Option.getD])

/-! ## C7 -/

/-- Counterexample to C7 as stated: a format-only conversion (an invocation
of `process` that produces a new artifact) derives its output path as stem +
canonical extension with NO fixed suffix token — the returned path keeps the
input's stem and is not `stem + "_compressed" + ".mp4"`. -/
theorem convert_output_no_stem_token_cex :
    ((⟨25⟩ : VideoCompressor).compress_if_needed envGood fsSmallMkv pMkv
        none true).1.1 = .ok pMp4
    ∧ pMp4 ≠ (pMkv.with_stem (pMkv.stem ++ "_compressed")).with_suffix ".mp4"
    ∧ pMp4.stem = pMkv.stem := by
  have h1 : pyLower ".mkv" = ".mkv" := by decide
  have hrun : (⟨25⟩ : VideoCompressor).compress_if_needed envGood fsSmallMkv
      pMkv none true
      = ((.ok pMp4, ⟨[(pMp4, 20 * 1024 * 1024)]⟩,
          [.runFfmpegConvert pMkv pMp4, .unlink pMkv]), ⟨25⟩) := by
    norm_num [VideoCompressor.compress_if_needed,
      VideoCompressor.convert_to_mp4, FS.statSize, FS.write, FS.remove,
      fsSmallMkv, envGood, pMkv, pMp4, h1, Path.with_suffix, Option.getD]
    decide
  rw [hrun]
  exact ⟨rfl, by decide, rfl⟩

/-- **C7 (amended).** The output path is derived deterministically from the
input path and never equals it, but the derivation differs by path: the
shrink path yields stem + `_compressed` + `.mp4`, while the format-only
conversion path yields stem + `.mp4` with no suffix token. -/
theorem output_path_derivation (c : VideoCompressor) (env : Env) (fs : FS)
    (p : Path) (thr? : Option ℚ) (flag : Bool) (sz : Nat)
    (hstat : fs.statSize p = .ok sz) :
    ((sz : ℚ) / (1024 * 1024) > thr?.getD c.target_size_mb →
      ∀ q, (c.compress_if_needed env fs p thr? flag).1.1 = .ok q →
        q = (p.with_stem (p.stem ++ "_compressed")).with_suffix ".mp4"
        ∧ q ≠ p)
    ∧ (¬ ((sz : ℚ) / (1024 * 1024) > thr?.getD c.target_size_mb) →
        flag = true → pyLower p.suffix ≠ ".mp4" →
      ∀ q, (c.compress_if_needed env fs p thr? flag).1.1 = .ok q →
        q = p.with_suffix ".mp4" ∧ q ≠ p) := by
  constructor
  · intro hbig q hq
    simp only [VideoCompressor.compress_if_needed, hstat] at hq
    rw [if_neg (fun hc => hc.1 hbig), if_pos hbig] at hq
    rcases compress_total_cases c env fs p with h | h | ⟨b, m, hb, h⟩
      | ⟨b, fs', hb, h, hexo, hfs'⟩
    · simp [h] at hq
    · simp [h] at hq
    · simp [h] at hq
    · simp only [h] at hq
      rw [if_pos (with_stem_compressed_ne p)] at hq
      have hq' : q = (p.with_stem (p.stem ++ "_compressed")).with_suffix
          ".mp4" := by
        have := hq.symm
        simpa using this
      exact ⟨hq', hq' ▸ with_stem_compressed_ne p⟩
  · intro hsmall hflag hsuf q hq
    simp only [VideoCompressor.compress_if_needed, hstat] at hq
    rw [if_neg (fun hc => hc.2 ⟨hflag, hsuf⟩), if_neg hsmall,
      if_pos ⟨hflag, hsuf⟩] at hq
    rcases convert_total_cases env fs p with h | ⟨h, hs⟩ | h | h
    · simp [h] at hq
    · exact absurd (by rw [hs]; decide) hsuf
    · simp [h] at hq
    · simp only [h] at hq
      rw [if_pos (with_suffix_mp4_ne hsuf)] at hq
      have hq' : q = p.with_suffix ".mp4" := by
        have := hq.symm
        simpa using this
      exact ⟨hq', hq' ▸ with_suffix_mp4_ne hsuf⟩

/-- Witness for the amended C7: the theorem applied to a 30 MB `.mkv`
artifact under the default 25 MB budget. -/
theorem output_path_derivation_witness :
    (((30 * 1024 * 1024 : ℕ) : ℚ) / (1024 * 1024)
        > (none : Option ℚ).getD (⟨25⟩ : VideoCompressor).target_size_mb →
      ∀ q, ((⟨25⟩ : VideoCompressor).compress_if_needed envGood fsBigMkv pMkv
          none true).1.1 = .ok q →
        q = (pMkv.with_stem (pMkv.stem ++ "_compressed")).with_suffix ".mp4"
        ∧ q ≠ pMkv)
    ∧ (¬ (((30 * 1024 * 1024 : ℕ) : ℚ) / (1024 * 1024)
        > (none : Option ℚ).getD (⟨25⟩ : VideoCompressor).target_size_mb) →
        true = true → pyLower pMkv.suffix ≠ ".mp4" →
      ∀ q, ((⟨25⟩ : VideoCompressor).compress_if_needed envGood fsBigMkv pMkv
          none true).1.1 = .ok q →
        q = pMkv.with_suffix ".mp4" ∧ q ≠ pMkv) :=
  output_path_derivation ⟨25⟩ envGood fsBigMkv pMkv none true
    (30 * 1024 * 1024) (by decide)

/-! ## C8 -/

lemma missing_via_stat (c : VideoCompressor) (env : Env) (fs : FS) (p : Path)
    (thr? : Option ℚ) (flag : Bool) {e : Err}
    (hstat : fs.statSize p = .error e) :
    c.compress_if_needed env fs p thr? flag = ((.error e, fs, []), c) := by
  simp only [VideoCompressor.compress_if_needed, hstat]

lemma noop_via_decision (c : VideoCompressor) (env : Env) (fs : FS) (p : Path)
    (thr? : Option ℚ) (flag : Bool) (sz : Nat)
    (hstat : fs.statSize p = .ok sz)
    (hsmall : ¬ ((sz : ℚ) / (1024 * 1024) > thr?.getD c.target_size_mb))
    (hncv : ¬ (flag = true ∧ pyLower p.suffix ≠ ".mp4")) :
    c.compress_if_needed env fs p thr? flag = ((.ok p, fs, []), c) := by
  simp only [VideoCompressor.compress_if_needed, hstat]
  rw [if_pos ⟨hsmall, hncv⟩]

lemma compress_if_needed_shrink_eq (c : VideoCompressor) (env : Env)
    (fs : FS) (p : Path) (thr? : Option ℚ) (flag : Bool) (sz : Nat)
    (hstat : fs.statSize p = .ok sz)
    (hbig : (sz : ℚ) / (1024 * 1024) > thr?.getD c.target_size_mb) :
    c.compress_if_needed env fs p thr? flag
      = match c.compress env fs p none none with
        | (.error e, fs1, evs) => ((.error e, fs1, evs), c)
        | (.ok processed_path, fs1, evs) =>
          if processed_path ≠ p then
            ((.ok processed_path,
              if env.unlink_ok then fs1.remove p else fs1,
              evs ++ [.unlink p]), c)
          else ((.ok processed_path, fs1, evs), c) := by
  simp only [VideoCompressor.compress_if_needed, hstat]
  rw [if_neg (fun hc => hc.1 hbig), if_pos hbig]

lemma compress_if_needed_convert_eq (c : VideoCompressor) (env : Env)
    (fs : FS) (p : Path) (thr? : Option ℚ) (flag : Bool) (sz : Nat)
    (hstat : fs.statSize p = .ok sz)
    (hsmall : ¬ ((sz : ℚ) / (1024 * 1024) > thr?.getD c.target_size_mb))
    (hcv : flag = true ∧ pyLower p.suffix ≠ ".mp4") :
    c.compress_if_needed env fs p thr? flag
      = match VideoCompressor.convert_to_mp4 env fs p none with
        | (.error e, fs1, evs) => ((.error e, fs1, evs), c)
        | (.ok processed_path, fs1, evs) =>
          if processed_path ≠ p then
            ((.ok processed_path,
              if env.unlink_ok then fs1.remove p else fs1,
              evs ++ [.unlink p]), c)
          else ((.ok processed_path, fs1, evs), c) := by
  simp only [VideoCompressor.compress_if_needed, hstat]
  rw [if_neg (fun hc => hc.2 hcv), if_neg hsmall, if_pos hcv]

/-- **C8.** Deleting the superseded original is best-effort: the returned
result of `compress_if_needed` is identical whether `unlink` succeeds or
raises an `OSError` (so the call still succeeds and still returns the new
artifact's path), and when deletion fails the original remains on disk. -/
theorem cleanup_best_effort (c : VideoCompressor) (env : Env) (fs : FS)
    (p : Path) (thr? : Option ℚ) (flag : Bool) (hex : fs.existsp p = true) :
    (c.compress_if_needed { env with unlink_ok := false } fs p thr?
        flag).1.1
      = (c.compress_if_needed { env with unlink_ok := true } fs p thr?
          flag).1.1
    ∧ (c.compress_if_needed { env with unlink_ok := false } fs p thr?
        flag).1.2.1.existsp p = true := by
  have hcompF : c.compress { env with unlink_ok := false } fs p none none
      = c.compress env fs p none none := rfl
  have hcompT : c.compress { env with unlink_ok := true } fs p none none
      = c.compress env fs p none none := rfl
  have hconvF : VideoCompressor.convert_to_mp4 { env with unlink_ok := false }
      fs p none = VideoCompressor.convert_to_mp4 env fs p none := rfl
  have hconvT : VideoCompressor.convert_to_mp4 { env with unlink_ok := true }
      fs p none = VideoCompressor.convert_to_mp4 env fs p none := rfl
  rcases hstat : fs.statSize p with e | sz
  · rw [missing_via_stat c { env with unlink_ok := false } fs p thr? flag hstat,
        missing_via_stat c { env with unlink_ok := true } fs p thr? flag hstat]
    exact ⟨rfl, hex⟩
  · by_cases hnc : (sz : ℚ) / (1024 * 1024) > thr?.getD c.target_size_mb
    · rw [compress_if_needed_shrink_eq c { env with unlink_ok := false } fs p
          thr? flag sz hstat hnc,
        compress_if_needed_shrink_eq c { env with unlink_ok := true } fs p
          thr? flag sz hstat hnc,
        hcompF, hcompT]
      rcases compress_total_cases c env fs p with h | h | ⟨b, m, hb, h⟩
        | ⟨b, fs', hb, h, hexo, hfs'⟩
      · rw [h]
        exact ⟨rfl, hex⟩
      · rw [h]
        exact ⟨rfl, hex⟩
      · rw [h]
        exact ⟨rfl, hex⟩
      · rw [h]
        simp only [Env.unlink_ok]
        rw [if_pos (with_stem_compressed_ne p),
            if_pos (with_stem_compressed_ne p)]
        refine ⟨rfl, ?_⟩
        simp only [Bool.false_eq_true, if_false]
        rcases hfs' with hfs' | hfs'
        · rw [hfs']
          exact hex
        · rw [hfs', FS.existsp_write_ne fs env.out_size
            (Ne.symm (with_stem_compressed_ne p))]
          exact hex
    · by_cases hcv : flag = true ∧ pyLower p.suffix ≠ ".mp4"
      · rw [compress_if_needed_convert_eq c { env with unlink_ok := false }
            fs p thr? flag sz hstat hnc hcv,
          compress_if_needed_convert_eq c { env with unlink_ok := true }
            fs p thr? flag sz hstat hnc hcv,
          hconvF, hconvT]
        rcases convert_total_cases env fs p with h | ⟨h, hs⟩ | h | h
        · rw [h]
          exact ⟨rfl, hex⟩
        · rw [h]
          simp only [Env.unlink_ok]
          rw [if_neg (fun hne => hne rfl), if_neg (fun hne => hne rfl)]
          exact ⟨rfl, hex⟩
        · rw [h]
          exact ⟨rfl, hex⟩
        · rw [h]
          simp only [Env.unlink_ok]
          rw [if_pos (with_suffix_mp4_ne hcv.2),
              if_pos (with_suffix_mp4_ne hcv.2)]
          refine ⟨rfl, ?_⟩
          simp only [Bool.false_eq_true, if_false]
          cases hcr : env.ffmpeg_creates with
          | false =>
            simp only [hcr, Bool.false_eq_true, if_false]
            exact hex
          | true =>
            simp only [hcr, if_true]
            rw [FS.existsp_write_ne fs env.out_size
              (Ne.symm (with_suffix_mp4_ne hcv.2))]
            exact hex
      · rw [noop_via_decision c { env with unlink_ok := false } fs p thr?
            flag sz hstat hnc hcv,
          noop_via_decision c { env with unlink_ok := true } fs p thr? flag
            sz hstat hnc hcv]
        exact ⟨rfl, hex⟩

/-- Witness for C8: a 30 MB `.mkv` shrink run with failing deletion, applied
at the concrete fixtures. -/
theorem cleanup_best_effort_witness :
    ((⟨25⟩ : VideoCompressor).compress_if_needed
        { envGood with unlink_ok := false } fsBigMkv pMkv none true).1.1
      = ((⟨25⟩ : VideoCompressor).compress_if_needed
          { envGood with unlink_ok := true } fsBigMkv pMkv none true).1.1
    ∧ ((⟨25⟩ : VideoCompressor).compress_if_needed
        { envGood with unlink_ok := false } fsBigMkv pMkv none
        true).1.2.1.existsp pMkv = true :=
  cleanup_best_effort ⟨25⟩ envGood fsBigMkv pMkv none true (by decide)

/-! ## C9 -/

lemma compress_if_needed_final_compressor (c : VideoCompressor) (env : Env)
    (fs : FS) (p : Path) (thr? : Option ℚ) (flag : Bool) :
    (c.compress_if_needed env fs p thr? flag).2 = c := by
  simp only [VideoCompressor.compress_if_needed]
  repeat' split
  all_goals rfl

/-- **C9.** The instance field `target_size_mb` is unchanged by
`compress_if_needed`; the per-call `threshold_mb` influences only the shrink
decision — two thresholds that both trigger the shrink yield identical
results — and the bitrate handed to the transcode tool is always computed
by `_calculate_bitrate` from the instance's `target_size_mb`, never from the
threshold. -/
theorem threshold_scope (c : VideoCompressor) (env : Env) (fs : FS)
    (p : Path) (t1 t2 : ℚ) (flag : Bool) (sz : Nat)
    (hstat : fs.statSize p = .ok sz)
    (h1 : (sz : ℚ) / (1024 * 1024) > t1)
    (h2 : (sz : ℚ) / (1024 * 1024) > t2) :
    c.compress_if_needed env fs p (some t1) flag
      = c.compress_if_needed env fs p (some t2) flag
    ∧ (c.compress_if_needed env fs p (some t1) flag).2 = c
    ∧ (∀ inp out b,
        Event.runFfmpegCompress inp out b
            ∈ (c.compress_if_needed env fs p (some t1) flag).1.2.2 →
        c.calculate_bitrate (VideoCompressor.get_duration env p).1
          = .ok b) := by
  have hmain : c.compress_if_needed env fs p (some t1) flag
      = c.compress_if_needed env fs p (some t2) flag := by
    simp only [VideoCompressor.compress_if_needed, hstat, Option.getD_some]
    rw [if_neg (fun hc => hc.1 h1), if_pos h1,
        if_neg (fun hc => hc.1 h2), if_pos h2]
  refine ⟨hmain,
    compress_if_needed_final_compressor c env fs p (some t1) flag, ?_⟩
  intro inp out b hmem
  simp only [VideoCompressor.compress_if_needed, hstat, Option.getD_some]
    at hmem
  rw [if_neg (fun hc => hc.1 h1), if_pos h1] at hmem
  rcases compress_total_cases c env fs p with h | h | ⟨b', m, hb', h⟩
    | ⟨b', fs', hb', h, hexo, hfs'⟩
  · simp [h] at hmem
  · simp only [h] at hmem
    have := probe_trace_no_transcode env p _ hmem
    simp [Event.isTranscode] at this
  · simp only [h] at hmem
    rw [List.mem_append] at hmem
    rcases hmem with hmem | hmem
    · have := probe_trace_no_transcode env p _ hmem
      simp [Event.isTranscode] at this
    · have heq : Event.runFfmpegCompress inp out b
          = Event.runFfmpegCompress p
              ((p.with_stem (p.stem ++ "_compressed")).with_suffix ".mp4")
              b' := by
        simpa using hmem
      have hbb : b = b' := by
        have := heq
        simp only [Event.runFfmpegCompress.injEq] at this
        exact this.2.2
      rw [hbb]
      exact hb'
  · simp only [h] at hmem
    rw [if_pos (with_stem_compressed_ne p)] at hmem
    rw [List.mem_append] at hmem
    rcases hmem with hmem | hmem
    · rw [List.mem_append] at hmem
      rcases hmem with hmem | hmem
      · have := probe_trace_no_transcode env p _ hmem
        simp [Event.isTranscode] at this
      · have heq : Event.runFfmpegCompress inp out b
            = Event.runFfmpegCompress p
                ((p.with_stem (p.stem ++ "_compressed")).with_suffix ".mp4")
                b' := by
          simpa using hmem
        have hbb : b = b' := by
          have := heq
          simp only [Event.runFfmpegCompress.injEq] at this
          exact this.2.2
        rw [hbb]
        exact hb'
    · simp at hmem

/-- Witness for C9: thresholds 20 MB and 10 MB on a 30 MB artifact under a
25 MB instance budget. -/
theorem threshold_scope_witness :
    (⟨25⟩ : VideoCompressor).compress_if_needed envGood fsBigMkv pMkv
        (some 20) true
      = (⟨25⟩ : VideoCompressor).compress_if_needed envGood fsBigMkv pMkv
          (some 10) true
    ∧ ((⟨25⟩ : VideoCompressor).compress_if_needed envGood fsBigMkv pMkv
        (some 20) true).2 = ⟨25⟩
    ∧ (∀ inp out b,
        Event.runFfmpegCompress inp out b
            ∈ ((⟨25⟩ : VideoCompressor).compress_if_needed envGood fsBigMkv
                pMkv (some 20) true).1.2.2 →
        VideoCompressor.calculate_bitrate ⟨25⟩
            (VideoCompressor.get_duration envGood pMkv).1 = .ok b) :=
  threshold_scope ⟨25⟩ envGood fsBigMkv pMkv 20 10 true (30 * 1024 * 1024)
    (by decide) (by norm_num) (by norm_num)

end ObsRec
